import Mathlib

/-!
Verification of `src/scale_service.py` (render-examples/scale-service).

The script is a single linear pipeline: read the API key, fetch the current
service state, compute a target instance count from one of three mutually
exclusive CLI modes, validate it, and either no-op, dry-run, or issue the
scale update.  We embed `main` as a pure function from its inputs (parsed
CLI arguments, environment, and the outcomes of the two network calls) to
an `Outcome` recording the exit code, the network calls made, and the lines
printed to stdout/stderr.  `RenderAPIClient.get_service` is embedded
separately over an abstract HTTP exchange result.
-/

/-- The fields of the fetched service JSON document that `main` reads:
`service.name` and `serviceDetails.numInstances`, each possibly absent
(the code supplies fallbacks via `dict.get`). -/
structure ServiceJson where
  serviceName : Option String
  numInstances : Option Int
  deriving DecidableEq, Repr

/-- The parsed CLI arguments as produced by the `argparse` configuration in
`main` (lines 105-152): `--service-id` is required; `--num-instances`,
`--increase-by`, `--decrease-by` are `type=int` options (any integer,
positive or negative, parses); `--api-key` is optional; `--dry-run` and
`--verbose` are flags. argparse enforces that exactly one of the three
scaling options is given, which theorems assume where relevant. -/
structure Args where
  service_id : String
  num_instances : Option Int
  increase_by : Option Int
  decrease_by : Option Int
  api_key : Option String
  dry_run : Bool
  verbose : Bool
  deriving DecidableEq, Repr

/-- Observable outcome of one run of `main`: the process exit code, how many
times `get_service` was invoked, the list of `num_instances` arguments passed
to `client.scale_service` (in order), and the lines printed to stdout and
stderr. -/
structure Outcome where
  exitCode : Nat
  fetchCalls : Nat
  scaleCalls : List Int
  stdoutLines : List String
  stderrLines : List String
  deriving DecidableEq, Repr

/-- `args.api_key or os.environ.get("RENDER_API_KEY")` (line 155), with
Python truthiness: an empty `--api-key` string is falsy and falls through
to the environment variable. -/
def effectiveApiKey (argKey env : Option String) : Option String :=
  match argKey with
  | some s => if s = "" then env else some s
  | none => env

/-- `if not api_key:` (line 156): the key is missing when it is `None` or
the empty string. -/
def keyMissing (k : Option String) : Bool :=
  match k with
  | none => true
  | some s => s = ""

/-- The `if/elif/elif` chain computing `target_instances` (lines 176-181).
`none` models the (argparse-unreachable) case where no scaling option is
set, in which Python raises `NameError` at the first use of
`target_instances`. -/
def computeTarget (numInstances increaseBy decreaseBy : Option Int)
    (current : Int) : Option Int :=
  match numInstances with
  | some n => some n
  | none =>
    match increaseBy with
    | some n => some (current + n)
    | none =>
      match decreaseBy with
      | some n => some (max 0 (current - n))
      | none => none

/-- stderr line of line 157. -/
def configErrMsg : String :=
  "Error: API key is required. Provide via --api-key or RENDER_API_KEY environment variable."

/-- stdout line of line 165 (verbose only). -/
def fetchingMsg (serviceId : String) : String :=
  "Fetching service details for " ++ (serviceId ++ "...")

/-- stdout line of line 172 (verbose only). -/
def serviceMsg (name : String) : String :=
  "Service: " ++ name

/-- stdout line of line 173 (verbose only). -/
def currentVerboseMsg (current : Int) : String :=
  "Current instances: " ++ toString current

/-- stderr line of line 185. -/
def negativeErrMsg (target : Int) : String :=
  "Error: Target instance count cannot be negative: " ++ toString target

/-- stdout line of line 188. -/
def headerMsg (name serviceId : String) : String :=
  "Scaling service '" ++ (name ++ ("' (ID: " ++ (serviceId ++ ")")))

/-- stdout line of line 189. -/
def headerCurrentMsg (current : Int) : String :=
  "  Current instances: " ++ toString current

/-- stdout line of line 190. -/
def headerTargetMsg (target : Int) : String :=
  "  Target instances:  " ++ toString target

/-- stdout line of line 193. -/
def noopMsg : String :=
  "Service is already at the target instance count. No action needed."

/-- stdout line of line 197. -/
def dryRunMsg : String :=
  "\n[DRY RUN] Would scale service but --dry-run flag is set. Exiting."

/-- stdout line of line 201. -/
def scalingMsg : String :=
  "\nScaling service..."

/-- stdout line of line 204. -/
def successMsg (target : Int) : String :=
  "✓ Successfully scaled service to " ++ (toString target ++ " instances")

/-- stdout lines of lines 207-208 (verbose only), with `body` standing for
`json.dumps(result, indent=2)`. -/
def apiRespMsg (body : String) : String :=
  "\nAPI Response:\n" ++ body

/-- Python's `str` of the `NameError` raised when `target_instances` is
unbound at line 184 (only reachable if no scaling option were set). -/
def nameErrMsg : String :=
  "Error: name 'target_instances' is not defined"

/-- Embedding of `main` (lines 103-212).  `fetch` is the outcome of
`client.get_service(args.service_id)`: `.error msg` when it raises an
exception with message `msg`, `.ok svc` when it returns the service dict.
`scale` maps the target passed to `client.scale_service` to that call's
outcome, with the `.ok` payload standing for the response rendered by
`json.dumps`.  `sys.exit(k)` raises `SystemExit`, which the
`except Exception` handler (line 210) does not catch, so each `sys.exit`
ends the run with that code. -/
def runMain (args : Args) (env : Option String)
    (fetch : Except String ServiceJson)
    (scale : Int → Except String String) : Outcome :=
  let api_key := effectiveApiKey args.api_key env
  if keyMissing api_key then
    { exitCode := 1, fetchCalls := 0, scaleCalls := [],
      stdoutLines := [], stderrLines := [configErrMsg] }
  else
    let pre := if args.verbose then [fetchingMsg args.service_id] else []
    match fetch with
    | .error msg =>
      { exitCode := 1, fetchCalls := 1, scaleCalls := [],
        stdoutLines := pre, stderrLines := ["Error: " ++ msg] }
    | .ok svc =>
      let current_instances := svc.numInstances.getD 0
      let service_name := svc.serviceName.getD args.service_id
      let pre2 := pre ++
        (if args.verbose then
          [serviceMsg service_name, currentVerboseMsg current_instances]
        else [])
      match computeTarget args.num_instances args.increase_by
          args.decrease_by current_instances with
      | none =>
        { exitCode := 1, fetchCalls := 1, scaleCalls := [],
          stdoutLines := pre2, stderrLines := [nameErrMsg] }
      | some target_instances =>
        if target_instances < 0 then
          { exitCode := 1, fetchCalls := 1, scaleCalls := [],
            stdoutLines := pre2, stderrLines := [negativeErrMsg target_instances] }
        else
          let hdr := pre2 ++
            [headerMsg service_name args.service_id,
             headerCurrentMsg current_instances,
             headerTargetMsg target_instances]
          if target_instances = current_instances then
            { exitCode := 0, fetchCalls := 1, scaleCalls := [],
              stdoutLines := hdr ++ [noopMsg], stderrLines := [] }
          else if args.dry_run then
            { exitCode := 0, fetchCalls := 1, scaleCalls := [],
              stdoutLines := hdr ++ [dryRunMsg], stderrLines := [] }
          else
            match scale target_instances with
            | .error msg =>
              { exitCode := 1, fetchCalls := 1, scaleCalls := [target_instances],
                stdoutLines := hdr ++ [scalingMsg], stderrLines := ["Error: " ++ msg] }
            | .ok body =>
              { exitCode := 0, fetchCalls := 1, scaleCalls := [target_instances],
                stdoutLines := hdr ++ [scalingMsg, successMsg target_instances] ++
                  (if args.verbose then [apiRespMsg body] else []),
                stderrLines := [] }

/-- The outcome of the HTTP exchange performed by `urllib.request.urlopen`
inside `RenderAPIClient.get_service`: a 2xx response carrying a body, an
`urllib.error.HTTPError` (status code, reason phrase, and optional error
body — `None` when `e.fp` is unset), or any other transport-level
exception (DNS, connection, timeout) carrying its `str`. -/
inductive HttpResult where
  | success (body : String)
  | httpError (code : Nat) (reason : String) (errBody : Option String)
  | transportError (msg : String)
  deriving DecidableEq, Repr

/-- CPython's `json.JSONDecodeError` as raised by `json.loads`: an error
message plus the line, column and character offset of the failure in the
document. -/
structure JsonDecodeError where
  msg : String
  lineno : Nat
  colno : Nat
  pos : Nat
  deriving DecidableEq, Repr

/-- `str(e)` for `e : json.JSONDecodeError`: CPython formats it as
`"%s: line %d column %d (char %d)"` — the document itself does not appear. -/
def JsonDecodeError.str (e : JsonDecodeError) : String :=
  e.msg ++ (": line " ++ (toString e.lineno ++ (" column " ++
    (toString e.colno ++ (" (char " ++ (toString e.pos ++ ")"))))))

/-- Embedding of `RenderAPIClient.get_service` (lines 47-71) over the HTTP
exchange result.  `parse` is the behaviour of `json.loads` on the response
body.  On a 2xx response the body is parsed; a `JSONDecodeError` falls into
the generic `except Exception` branch (line 70), whose message wraps
`str(e)`.  An `HTTPError` is reported with code, reason and error body
(line 69); any other exception is wrapped by line 71. -/
def get_service (resp : HttpResult)
    (parse : String → Except JsonDecodeError ServiceJson) :
    Except String ServiceJson :=
  match resp with
  | .success body =>
    match parse body with
    | .ok v => .ok v
    | .error e => .error ("Failed to get service: " ++ e.str)
  | .httpError code reason errBody =>
    .error ("Failed to get service: " ++ (toString code ++ (" " ++ (reason ++
      ("\n" ++ errBody.getD "No error details")))))
  | .transportError msg =>
    .error ("Failed to get service: " ++ msg)

/-- Characters that can start a JSON value for CPython's scanner:
an object, array or string opener, a number (digit or minus), or the first
character of `true`, `false`, `null`, `NaN`, `Infinity`. -/
def jsonValueStart (c : Char) : Bool :=
  c = '{' || c = '[' || c = '"' || c = '-' || c.isDigit ||
  c = 't' || c = 'f' || c = 'n' || c = 'N' || c = 'I'

/-- JSON whitespace skipped by CPython's scanner. -/
def jsonWs (c : Char) : Bool :=
  c = ' ' || c = '\t' || c = '\n' || c = '\r'

/-- Model of CPython `json.loads` restricted to the document's first value
character: after skipping leading whitespace, a document that is empty or
whose first character cannot start any JSON value makes `json.loads` raise
`JSONDecodeError("Expecting value", doc, idx)`, whose line/column are
computed from the newlines before `idx`.  `none` means the scan proceeds
past the first character (not modelled further here). -/
def jsonLoadsScanErr (doc : String) : Option JsonDecodeError :=
  let cs := doc.data
  let idx := (cs.takeWhile jsonWs).length
  let lineno := ((cs.take idx).count '\n') + 1
  let colno :=
    match (cs.take idx).reverse.findIdx? (· = '\n') with
    | none => idx + 1
    | some k => k + 1
  match cs.drop idx with
  | [] => some ⟨"Expecting value", lineno, colno, idx⟩
  | c :: _ =>
    if jsonValueStart c then none
    else some ⟨"Expecting value", lineno, colno, idx⟩

/-- A `json.loads` behaviour consistent with `jsonLoadsScanErr`: it raises
exactly the scan error when there is one.  Documents the scan does not
reject are outside the model and mapped to an empty service dict; the
theorems about parse failures never reach that branch. -/
def jsonLoadsFrom (doc : String) : Except JsonDecodeError ServiceJson :=
  match jsonLoadsScanErr doc with
  | some e => .error e
  | none => .ok ⟨none, none⟩

/-- `sub` occurs as a contiguous substring of `s`. -/
def strContains (s sub : String) : Bool :=
  go sub.data s.data
where
  go (pat : List Char) : List Char → Bool
  | [] => pat.isEmpty
  | c :: rest => pat.isPrefixOf (c :: rest) || go pat rest

/-- The spec's input contract for `ScalingRequest` (§3, §6): whichever
scaling option is present carries a non-negative integer. -/
def NonnegPayloads (args : Args) : Prop :=
  (∀ n ∈ args.num_instances, 0 ≤ n) ∧
  (∀ n ∈ args.increase_by, 0 ≤ n) ∧
  (∀ n ∈ args.decrease_by, 0 ≤ n)

/-- Fixture: a fetched service named `my-web` with 3 instances. -/
def svcWeb3 : ServiceJson := ⟨some "my-web", some 3⟩

/-- Fixture: a fetched service whose `numInstances` field is -2 (the code
never validates the fetched count). -/
def svcNeg2 : ServiceJson := ⟨some "my-web", some (-2)⟩

/-- Fixture: a scale call that always succeeds. -/
def scaleOk : Int → Except String String := fun _ => .ok "ok"

/-- Fixture: `--service-id srv-abc123 --num-instances 5 --api-key rnd_key`. -/
def argsAbs5 : Args := ⟨"srv-abc123", some 5, none, none, some "rnd_key", false, false⟩

/-- Fixture: `--num-instances 3` (matches `svcWeb3`'s current count). -/
def argsAbs3 : Args := ⟨"srv-abc123", some 3, none, none, some "rnd_key", false, false⟩

/-- Fixture: `--num-instances -2`. -/
def argsAbsNeg2 : Args := ⟨"srv-abc123", some (-2), none, none, some "rnd_key", false, false⟩

/-- Fixture: `--num-instances 5 --dry-run`. -/
def argsDry5 : Args := ⟨"srv-abc123", some 5, none, none, some "rnd_key", true, false⟩

/-- Fixture: `--num-instances -1 --dry-run`. -/
def argsDryNeg1 : Args := ⟨"srv-abc123", some (-1), none, none, some "rnd_key", true, false⟩

/-- Fixture: `--increase-by -1` (argparse `type=int` accepts it). -/
def argsIncNeg1 : Args := ⟨"srv-abc123", none, some (-1), none, some "rnd_key", false, false⟩

/-- Fixture: `--increase-by 2`. -/
def argsInc2 : Args := ⟨"srv-abc123", none, some 2, none, some "rnd_key", false, false⟩

/-- Fixture: no `--api-key`. -/
def argsNoKey : Args := ⟨"srv-abc123", some 5, none, none, none, false, false⟩

/-- Fixture: `--num-instances -2 --dry-run --verbose`. -/
def argsVerboseNeg2 : Args := ⟨"srv-abc123", some (-2), none, none, some "rnd_key", true, true⟩

/-- If a string differs from `tgt` within the first `n` characters of its
prefix `pre`, then `pre ++ suf` differs from `tgt` for every suffix. -/
theorem append_ne_of_take_ne (pre suf tgt : String) (n : Nat)
    (hlen : n ≤ pre.data.length)
    (hdiff : pre.data.take n ≠ tgt.data.take n) :
    pre ++ suf ≠ tgt := by
  intro h
  apply hdiff
  have hd : pre.data ++ suf.data = tgt.data := by
    rw [← String.data_append, h]
  calc pre.data.take n = (pre.data ++ suf.data).take n :=
        (List.take_append_of_le_length hlen).symm
    _ = tgt.data.take n := by rw [hd]

theorem strContains_go_append (pat l : List Char) :
    strContains.go pat (l ++ pat) = true := by
  induction l with
  | nil =>
    cases pat with
    | nil => rfl
    | cons c rest =>
      show (List.isPrefixOf (c :: rest) (c :: rest) ||
        strContains.go (c :: rest) rest) = true
      rw [List.isPrefixOf_iff_prefix.mpr (List.prefix_refl _)]
      rfl
  | cons c t ih =>
    show (List.isPrefixOf pat (c :: (t ++ pat)) ||
      strContains.go pat (t ++ pat)) = true
    rw [ih, Bool.or_true]

/-- A string always contains its own suffix as a substring. -/
theorem strContains_append_right (pre suf : String) :
    strContains (pre ++ suf) suf = true := by
  show strContains.go suf.data (pre ++ suf).data = true
  rw [String.data_append]
  exact strContains_go_append suf.data pre.data

theorem fetchingMsg_ne_noop (s : String) : fetchingMsg s ≠ noopMsg := by
  have h := append_ne_of_take_ne "Fetching service details for "
    (s ++ "...") noopMsg 1 (by decide) (by decide)
  exact h

theorem serviceMsg_ne_noop (s : String) : serviceMsg s ≠ noopMsg :=
  append_ne_of_take_ne "Service: " s noopMsg 8 (by decide) (by decide)

theorem currentVerboseMsg_ne_noop (c : Int) : currentVerboseMsg c ≠ noopMsg :=
  append_ne_of_take_ne "Current instances: " (toString c) noopMsg 1
    (by decide) (by decide)

theorem fetchingMsg_ne_dryRun (s : String) : fetchingMsg s ≠ dryRunMsg :=
  append_ne_of_take_ne "Fetching service details for "
    (s ++ "...") dryRunMsg 1 (by decide) (by decide)

theorem serviceMsg_ne_dryRun (s : String) : serviceMsg s ≠ dryRunMsg :=
  append_ne_of_take_ne "Service: " s dryRunMsg 1 (by decide) (by decide)

theorem currentVerboseMsg_ne_dryRun (c : Int) : currentVerboseMsg c ≠ dryRunMsg :=
  append_ne_of_take_ne "Current instances: " (toString c) dryRunMsg 1
    (by decide) (by decide)

/-- A computed target is non-negative whenever the scaling payloads satisfy
the spec's input contract and the fetched current count is non-negative:
absolute mode yields `n ≥ 0`, increase yields `current + n ≥ 0`, decrease
yields `max 0 (current - n) ≥ 0`. -/
theorem computeTarget_nonneg (args : Args) (current t : Int)
    (hpay : NonnegPayloads args) (hc : 0 ≤ current)
    (hct : computeTarget args.num_instances args.increase_by args.decrease_by
      current = some t) : 0 ≤ t := by
  obtain ⟨h1, h2, h3⟩ := hpay
  cases hni : args.num_instances with
  | some n =>
    have hn := h1 n (by simp [hni])
    simp only [computeTarget, hni, Option.some.injEq] at hct
    omega
  | none =>
    cases hinc : args.increase_by with
    | some n =>
      have hn := h2 n (by simp [hinc])
      simp only [computeTarget, hni, hinc, Option.some.injEq] at hct
      omega
    | none =>
      cases hdec : args.decrease_by with
      | some n =>
        simp only [computeTarget, hni, hinc, hdec, Option.some.injEq] at hct
        have hm := le_max_left 0 (current - n)
        rw [hct] at hm
        exact hm
      | none =>
        simp only [computeTarget, hni, hinc, hdec] at hct
        exact absurd hct (by simp)

/-- C1: the target instance count is a pure function of the fetched current
count and the selected mode (lines 175-181): for every `current ≥ 0` and
`n ≥ 0`, absolute mode yields `n`, increase-by yields `current + n`, and
decrease-by yields `max 0 (current - n)`, which is never negative. -/
theorem target_pure_function (current n : Int) (hc : 0 ≤ current)
    (hn : 0 ≤ n) :
    computeTarget (some n) none none current = some n ∧
    computeTarget none (some n) none current = some (current + n) ∧
    computeTarget none none (some n) current = some (max 0 (current - n)) ∧
    0 ≤ max 0 (current - n) :=
  ⟨rfl, rfl, rfl, le_max_left 0 _⟩

/-- Witness for C1 at `current = 3`, `n = 5`. -/
theorem target_pure_function_witness :
    computeTarget (some 5) none none 3 = some 5 ∧
    computeTarget none (some 5) none 3 = some (3 + 5) ∧
    computeTarget none none (some 5) 3 = some (max 0 (3 - 5)) ∧
    (0 : Int) ≤ max 0 (3 - 5) :=
  target_pure_function 3 5 (by decide) (by decide)

/-- C2: across every run — any arguments, environment, fetch outcome and
scale outcome — every value passed to `client.scale_service` is
non-negative: the validation at line 184 precedes the update call at
line 202, and the decrease-by mode clamps at 0. -/
theorem scale_called_nonneg (args : Args) (env : Option String)
    (fetch : Except String ServiceJson) (scale : Int → Except String String)
    (t : Int) (ht : t ∈ (runMain args env fetch scale).scaleCalls) :
    0 ≤ t := by
  by_cases hk : keyMissing (effectiveApiKey args.api_key env)
  · simp [runMain, hk] at ht
  · cases fetch with
    | error msg => simp [runMain, hk] at ht
    | ok svc =>
      cases hct : computeTarget args.num_instances args.increase_by
          args.decrease_by (svc.numInstances.getD 0) with
      | none => simp [runMain, hk, hct] at ht
      | some target =>
        by_cases hneg : target < 0
        · simp [runMain, hk, hct, hneg] at ht
        · by_cases heq : target = svc.numInstances.getD 0
          · subst heq
            simp [runMain, hk, hct, hneg] at ht
          · by_cases hdry : args.dry_run
            · simp [runMain, hk, hct, hneg, heq, hdry] at ht
            · cases hs : scale target with
              | error m =>
                simp [runMain, hk, hct, hneg, heq, hdry, hs] at ht
                omega
              | ok body =>
                simp [runMain, hk, hct, hneg, heq, hdry, hs] at ht
                omega

/-- Witness for C2: on the run `--num-instances 5` against a service at 3
instances, `scale_service` receives 5, and the theorem gives `0 ≤ 5`. -/
theorem scale_called_nonneg_witness : (0 : Int) ≤ 5 :=
  scale_called_nonneg argsAbs5 none (.ok svcWeb3) scaleOk 5 (by decide)

/-- C3: whenever the computed target is negative, the run exits with code 1,
prints a validation error on stderr that carries the offending value, and
never calls `scale_service` (lines 183-186 precede line 202). -/
theorem negative_target_rejected (args : Args) (env : Option String)
    (svc : ServiceJson) (scale : Int → Except String String) (t : Int)
    (hk : keyMissing (effectiveApiKey args.api_key env) = false)
    (hct : computeTarget args.num_instances args.increase_by args.decrease_by
      (svc.numInstances.getD 0) = some t)
    (hneg : t < 0) :
    (runMain args env (.ok svc) scale).exitCode = 1 ∧
    (runMain args env (.ok svc) scale).scaleCalls = [] ∧
    (runMain args env (.ok svc) scale).stderrLines = [negativeErrMsg t] ∧
    strContains (negativeErrMsg t) (toString t) = true := by
  refine ⟨?_, ?_, ?_, strContains_append_right _ _⟩ <;>
    simp [runMain, hk, hct, hneg]

/-- Witness for C3 at `--num-instances -2` against a service at 3 instances. -/
theorem negative_target_rejected_witness :
    (runMain argsAbsNeg2 none (.ok svcWeb3) scaleOk).exitCode = 1 ∧
    (runMain argsAbsNeg2 none (.ok svcWeb3) scaleOk).scaleCalls = [] ∧
    (runMain argsAbsNeg2 none (.ok svcWeb3) scaleOk).stderrLines =
      [negativeErrMsg (-2)] ∧
    strContains (negativeErrMsg (-2)) (toString (-2 : Int)) = true :=
  negative_target_rejected argsAbsNeg2 none svcWeb3 scaleOk (-2)
    rfl rfl (by decide)

/-- C4: when the computed target equals the (non-negative) fetched current
count, the run is a no-op: `scale_service` is never invoked, the
already-at-target message is printed, and `sys.exit(0)` ends the run
(lines 192-194). -/
theorem noop_when_at_target (args : Args) (env : Option String)
    (svc : ServiceJson) (scale : Int → Except String String) (t : Int)
    (hk : keyMissing (effectiveApiKey args.api_key env) = false)
    (hcur : 0 ≤ svc.numInstances.getD 0)
    (hct : computeTarget args.num_instances args.increase_by args.decrease_by
      (svc.numInstances.getD 0) = some t)
    (heq : t = svc.numInstances.getD 0) :
    (runMain args env (.ok svc) scale).exitCode = 0 ∧
    (runMain args env (.ok svc) scale).scaleCalls = [] ∧
    noopMsg ∈ (runMain args env (.ok svc) scale).stdoutLines := by
  have hneg : ¬ svc.numInstances.getD 0 < 0 := by omega
  subst heq
  simp [runMain, hk, hct, hneg]

/-- Witness for C4 at `--num-instances 3` against a service at 3 instances. -/
theorem noop_when_at_target_witness :
    (runMain argsAbs3 none (.ok svcWeb3) scaleOk).exitCode = 0 ∧
    (runMain argsAbs3 none (.ok svcWeb3) scaleOk).scaleCalls = [] ∧
    noopMsg ∈ (runMain argsAbs3 none (.ok svcWeb3) scaleOk).stdoutLines :=
  noop_when_at_target argsAbs3 none svcWeb3 scaleOk 3 rfl (by decide) rfl rfl

/-- C5: with `--dry-run` set and a computed target that differs from the
current count (inputs within the spec's contract: non-negative payloads and
a non-negative fetched count), `scale_service` is never invoked, the plan
(current and target counts, then the dry-run notice) is printed, and
`sys.exit(0)` ends the run (lines 196-198). -/
theorem dry_run_no_update (args : Args) (env : Option String)
    (svc : ServiceJson) (scale : Int → Except String String) (t : Int)
    (hk : keyMissing (effectiveApiKey args.api_key env) = false)
    (hpay : NonnegPayloads args)
    (hcur : 0 ≤ svc.numInstances.getD 0)
    (hct : computeTarget args.num_instances args.increase_by args.decrease_by
      (svc.numInstances.getD 0) = some t)
    (hdry : args.dry_run = true)
    (hne : t ≠ svc.numInstances.getD 0) :
    (runMain args env (.ok svc) scale).exitCode = 0 ∧
    (runMain args env (.ok svc) scale).scaleCalls = [] ∧
    headerCurrentMsg (svc.numInstances.getD 0) ∈
      (runMain args env (.ok svc) scale).stdoutLines ∧
    headerTargetMsg t ∈ (runMain args env (.ok svc) scale).stdoutLines ∧
    dryRunMsg ∈ (runMain args env (.ok svc) scale).stdoutLines := by
  have hnn := computeTarget_nonneg args _ t hpay hcur hct
  have hneg : ¬ t < 0 := by omega
  simp [runMain, hk, hct, hneg, hne, hdry]

/-- Witness for C5 at `--num-instances 5 --dry-run` against a service at 3
instances. -/
theorem dry_run_no_update_witness :
    (runMain argsDry5 none (.ok svcWeb3) scaleOk).exitCode = 0 ∧
    (runMain argsDry5 none (.ok svcWeb3) scaleOk).scaleCalls = [] ∧
    headerCurrentMsg (svcWeb3.numInstances.getD 0) ∈
      (runMain argsDry5 none (.ok svcWeb3) scaleOk).stdoutLines ∧
    headerTargetMsg 5 ∈ (runMain argsDry5 none (.ok svcWeb3) scaleOk).stdoutLines ∧
    dryRunMsg ∈ (runMain argsDry5 none (.ok svcWeb3) scaleOk).stdoutLines :=
  dry_run_no_update argsDry5 none svcWeb3 scaleOk 5 rfl
    (by refine ⟨?_, ?_, ?_⟩ <;> intro n hn <;> simp [argsDry5] at hn <;> omega)
    (by decide) rfl rfl (by decide)

/-- C6: when `get_service`'s HTTP exchange fails — a non-2xx `HTTPError` or
a transport-level exception — the raised message propagates to the handler
at line 210: `scale_service` is never attempted and the exit code is 1. -/
theorem fetch_failure_no_update (args : Args) (env : Option String)
    (resp : HttpResult) (parse : String → Except JsonDecodeError ServiceJson)
    (scale : Int → Except String String)
    (hk : keyMissing (effectiveApiKey args.api_key env) = false)
    (hfail : (∃ code reason errBody, resp = .httpError code reason errBody) ∨
      (∃ msg, resp = .transportError msg)) :
    (runMain args env (get_service resp parse) scale).exitCode = 1 ∧
    (runMain args env (get_service resp parse) scale).scaleCalls = [] := by
  rcases hfail with ⟨c, r, b, rfl⟩ | ⟨m, rfl⟩ <;>
    simp [runMain, get_service, hk]

/-- Witness for C6 at a 404 response. -/
theorem fetch_failure_no_update_witness :
    (runMain argsAbs5 none
      (get_service (.httpError 404 "Not Found" (some "no such service"))
        jsonLoadsFrom) scaleOk).exitCode = 1 ∧
    (runMain argsAbs5 none
      (get_service (.httpError 404 "Not Found" (some "no such service"))
        jsonLoadsFrom) scaleOk).scaleCalls = [] :=
  fetch_failure_no_update argsAbs5 none
    (.httpError 404 "Not Found" (some "no such service")) jsonLoadsFrom scaleOk
    rfl (Or.inl ⟨404, "Not Found", some "no such service", rfl⟩)

/-- C7: when neither `--api-key` nor `RENDER_API_KEY` supplies a (non-empty)
key, the run prints the configuration error to stderr, exits with code 1,
and makes neither network call (lines 154-158 precede both calls). -/
theorem missing_key_no_network (args : Args) (env : Option String)
    (fetch : Except String ServiceJson) (scale : Int → Except String String)
    (hk : keyMissing (effectiveApiKey args.api_key env) = true) :
    (runMain args env fetch scale).exitCode = 1 ∧
    (runMain args env fetch scale).fetchCalls = 0 ∧
    (runMain args env fetch scale).scaleCalls = [] ∧
    (runMain args env fetch scale).stderrLines = [configErrMsg] := by
  simp [runMain, hk]

/-- Witness for C7 with no `--api-key` and no environment variable. -/
theorem missing_key_no_network_witness :
    (runMain argsNoKey none (.ok svcWeb3) scaleOk).exitCode = 1 ∧
    (runMain argsNoKey none (.ok svcWeb3) scaleOk).fetchCalls = 0 ∧
    (runMain argsNoKey none (.ok svcWeb3) scaleOk).scaleCalls = [] ∧
    (runMain argsNoKey none (.ok svcWeb3) scaleOk).stderrLines = [configErrMsg] :=
  missing_key_no_network argsNoKey none (.ok svcWeb3) scaleOk rfl

/-- C8 counterexample: `--increase-by -1` passes the input boundary
(argparse `type=int` accepts any integer) and reaches the decision logic,
which computes `3 + (-1) = 2` and even invokes `scale_service` with it —
a `ScalingRequest` in increase-by mode carried a negative `n`. -/
theorem negative_delta_reaches_decision :
    argsIncNeg1.increase_by = some (-1) ∧ ((-1 : Int) < 0) ∧
    (runMain argsIncNeg1 none (.ok svcWeb3) scaleOk).scaleCalls = [2] ∧
    (runMain argsIncNeg1 none (.ok svcWeb3) scaleOk).exitCode = 0 :=
  ⟨rfl, by decide, by decide, by decide⟩

/-- C8 amended: the input boundary does not reject negative deltas.  A run
in increase-by mode with a negative `n` proceeds to the decision logic,
which computes `current + n`; when that is non-negative the update is
invoked with it (the post-computation check at line 184 is the only
guard). -/
theorem negative_delta_accepted (args : Args) (env : Option String)
    (svc : ServiceJson) (scale : Int → Except String String) (n : Int)
    (hk : keyMissing (effectiveApiKey args.api_key env) = false)
    (hni : args.num_instances = none)
    (hinc : args.increase_by = some n)
    (hn : n < 0)
    (hnn : 0 ≤ svc.numInstances.getD 0 + n)
    (hdry : args.dry_run = false) :
    (runMain args env (.ok svc) scale).scaleCalls =
      [svc.numInstances.getD 0 + n] := by
  have hct : computeTarget args.num_instances args.increase_by
      args.decrease_by (svc.numInstances.getD 0) =
      some (svc.numInstances.getD 0 + n) := by
    simp [computeTarget, hni, hinc]
  have hneg : ¬ (svc.numInstances.getD 0 + n) < 0 := by omega
  have hne : svc.numInstances.getD 0 + n ≠ svc.numInstances.getD 0 := by omega
  cases hs : scale (svc.numInstances.getD 0 + n) with
  | error m => simp [runMain, hk, hct, hneg, hne, hdry, hs]
  | ok body => simp [runMain, hk, hct, hneg, hne, hdry, hs]

/-- Witness for the amended C8 at `--increase-by -1` against a service at 3
instances. -/
theorem negative_delta_accepted_witness :
    (runMain argsIncNeg1 none (.ok svcWeb3) scaleOk).scaleCalls =
      [svcWeb3.numInstances.getD 0 + (-1)] :=
  negative_delta_accepted argsIncNeg1 none svcWeb3 scaleOk (-1)
    rfl rfl rfl (by decide) (by decide) rfl

/-- C9 counterexample: on a 2xx response with the malformed body `"oops"`,
`json.loads` raises `JSONDecodeError("Expecting value", doc, 0)`, and the
message raised at line 71 wraps only `str(e)` — the raw response body does
not occur in the reported message. -/
theorem parse_error_lacks_body :
    get_service (.success "oops") jsonLoadsFrom =
      .error "Failed to get service: Expecting value: line 1 column 1 (char 0)" ∧
    strContains
      "Failed to get service: Expecting value: line 1 column 1 (char 0)"
      "oops" = false := by
  exact ⟨rfl, by decide⟩

/-- C9 amended: when the HTTP exchange succeeds but `json.loads` raises a
`JSONDecodeError e`, `get_service` fails with the message
`"Failed to get service: " ++ str(e)` — the decoder's message and error
position, not the raw body. -/
theorem parse_error_message_shape (body : String) (e : JsonDecodeError)
    (parse : String → Except JsonDecodeError ServiceJson)
    (hp : parse body = .error e) :
    get_service (.success body) parse =
      .error ("Failed to get service: " ++ e.str) := by
  simp [get_service, hp]

/-- Witness for the amended C9 at body `"oops"`. -/
theorem parse_error_message_shape_witness :
    get_service (.success "oops") jsonLoadsFrom =
      .error ("Failed to get service: " ++
        JsonDecodeError.str ⟨"Expecting value", 1, 1, 0⟩) :=
  parse_error_message_shape "oops" ⟨"Expecting value", 1, 1, 0⟩
    jsonLoadsFrom rfl

theorem noopMsg_not_in_verbose (id name : String) (c : Int) :
    noopMsg ∉ [fetchingMsg id, serviceMsg name, currentVerboseMsg c] := by
  intro h
  rcases List.mem_cons.mp h with h | h
  · exact fetchingMsg_ne_noop id h.symm
  rcases List.mem_cons.mp h with h | h
  · exact serviceMsg_ne_noop name h.symm
  rcases List.mem_cons.mp h with h | h
  · exact currentVerboseMsg_ne_noop c h.symm
  · exact List.not_mem_nil _ h

theorem dryRunMsg_not_in_verbose (id name : String) (c : Int) :
    dryRunMsg ∉ [fetchingMsg id, serviceMsg name, currentVerboseMsg c] := by
  intro h
  rcases List.mem_cons.mp h with h | h
  · exact fetchingMsg_ne_dryRun id h.symm
  rcases List.mem_cons.mp h with h | h
  · exact serviceMsg_ne_dryRun name h.symm
  rcases List.mem_cons.mp h with h | h
  · exact currentVerboseMsg_ne_dryRun c h.symm
  · exact List.not_mem_nil _ h

/-- C10: validation takes precedence over the no-op and dry-run paths: for
a negative computed target the run exits with code 1, never calls
`scale_service`, and prints neither the already-at-target line nor the
dry-run plan line — whatever the `--dry-run` flag, and even when the
negative target equals the fetched current count. -/
theorem validation_precedes_noop_dryrun (args : Args) (env : Option String)
    (svc : ServiceJson) (scale : Int → Except String String) (t : Int)
    (hk : keyMissing (effectiveApiKey args.api_key env) = false)
    (hct : computeTarget args.num_instances args.increase_by args.decrease_by
      (svc.numInstances.getD 0) = some t)
    (hneg : t < 0) :
    (runMain args env (.ok svc) scale).exitCode = 1 ∧
    (runMain args env (.ok svc) scale).scaleCalls = [] ∧
    noopMsg ∉ (runMain args env (.ok svc) scale).stdoutLines ∧
    dryRunMsg ∉ (runMain args env (.ok svc) scale).stdoutLines := by
  refine ⟨by simp [runMain, hk, hct, hneg], by simp [runMain, hk, hct, hneg],
    ?_, ?_⟩
  · cases hv : args.verbose with
    | false => simp [runMain, hk, hct, hneg, hv]
    | true =>
      have hstdout : (runMain args env (.ok svc) scale).stdoutLines =
          [fetchingMsg args.service_id,
           serviceMsg (svc.serviceName.getD args.service_id),
           currentVerboseMsg (svc.numInstances.getD 0)] := by
        simp [runMain, hk, hct, hneg, hv]
      rw [hstdout]
      exact noopMsg_not_in_verbose _ _ _
  · cases hv : args.verbose with
    | false => simp [runMain, hk, hct, hneg, hv]
    | true =>
      have hstdout : (runMain args env (.ok svc) scale).stdoutLines =
          [fetchingMsg args.service_id,
           serviceMsg (svc.serviceName.getD args.service_id),
           currentVerboseMsg (svc.numInstances.getD 0)] := by
        simp [runMain, hk, hct, hneg, hv]
      rw [hstdout]
      exact dryRunMsg_not_in_verbose _ _ _

/-- Witness for C10 in the sharpest corner: `--num-instances -2 --dry-run
--verbose` against a service whose fetched count is also -2, so the
negative target equals the current count and the dry-run flag is set. -/
theorem validation_precedes_noop_dryrun_witness :
    (runMain argsVerboseNeg2 none (.ok svcNeg2) scaleOk).exitCode = 1 ∧
    (runMain argsVerboseNeg2 none (.ok svcNeg2) scaleOk).scaleCalls = [] ∧
    noopMsg ∉ (runMain argsVerboseNeg2 none (.ok svcNeg2) scaleOk).stdoutLines ∧
    dryRunMsg ∉ (runMain argsVerboseNeg2 none (.ok svcNeg2) scaleOk).stdoutLines :=
  validation_precedes_noop_dryrun argsVerboseNeg2 none svcNeg2 scaleOk (-2)
    rfl rfl (by decide)
